import Mathlib

set_option maxRecDepth 8000
set_option linter.unnecessarySeqFocus false

/-!
# Verification of the crawler-service adaptive fetch pipeline

Shallow embedding of the crawler service's core logic:

* the content-quality judge `isContentSufficient` (src/server/index.ts),
  including executable models of its JavaScript regular expressions;
* the domain keying helper `extractDomain` and the domain-profile store
  (domainProfileRepository.ts / database.ts);
* the escalation ladder `getAvailableEscalationChain` and the request
  handler `handleFetchRequest` (src/server/index.ts), with external
  effects (engine calls, URL parsing, markdown conversion) supplied as
  oracle functions and engine invocations recorded as an explicit trace;
* the browser pool slot lifecycle `_fetchInSlot` / `_ensureSlotConnected`
  (src/server/browserPool.ts) as a state machine on slot counters.

Page content is modelled as `List Char`; JavaScript string length is
measured in code units, modelled here as the character count.
-/

namespace Crawler

/-! ## Character classes used by the JS regexes -/

/-- JS regex `\s` whitespace class (the code points relevant here). -/
def isSpaceChar (c : Char) : Bool :=
  c = ' ' || c = '\t' || c = '\n' || c = '\r' ||
  c = Char.ofNat 11 || c = Char.ofNat 12 || c = Char.ofNat 0xa0 ||
  c = Char.ofNat 0x1680 || c = Char.ofNat 0x2028 || c = Char.ofNat 0x2029 ||
  c = Char.ofNat 0x202f || c = Char.ofNat 0x205f || c = Char.ofNat 0x3000 ||
  c = Char.ofNat 0xfeff ||
  (0x2000 ≤ c.toNat && c.toNat ≤ 0x200a)

/-- JS regex `["']`: a double or single quote. -/
def isQuoteChar (c : Char) : Bool :=
  c = '"' || c = Char.ofNat 39

/-- Consume a literal (given in lowercase) case-insensitively; return the
rest of the input on success. -/
def ciLit : List Char → List Char → Option (List Char)
  | [], rest => some rest
  | _ :: _, [] => none
  | l :: ls, c :: cs => if c.toLower = l then ciLit ls cs else none

/-- Consume one character satisfying `p`. -/
def expectClass (p : Char → Bool) : List Char → Option (List Char)
  | [] => none
  | c :: cs => if p c then some cs else none

/-- JS regex `\s+`: at least one whitespace character, greedily. -/
def reqSpaces (cs : List Char) : Option (List Char) :=
  match cs with
  | [] => none
  | c :: rest => if isSpaceChar c then some (rest.dropWhile isSpaceChar) else none

/-- Try the alternatives (lowercase literals) in regex order; the names in
the patterns below are prefix-free, so committing to the first literal
that matches agrees with full backtracking. -/
def firstAlt : List (List Char) → List Char → Option (List Char)
  | [], _ => none
  | alt :: alts, cs =>
    match ciLit alt cs with
    | some rest => some rest
    | none => firstAlt alts cs

/-! ## The three regex tests of `isContentSufficient`

`/<div\s+id=["'](?:root|app|__next|__nuxt)["']\s*>\s*<\/div>/i` -/

/-- Match the empty-SPA-shell regex at the head of the input. -/
def matchSpaShellAt (cs : List Char) : Bool :=
  (do
    let r ← ciLit "<div".toList cs
    let r ← reqSpaces r
    let r ← ciLit "id=".toList r
    let r ← expectClass isQuoteChar r
    let r ← firstAlt ["root".toList, "app".toList, "__next".toList, "__nuxt".toList] r
    let r ← expectClass isQuoteChar r
    let r := r.dropWhile isSpaceChar
    let r ← expectClass (· = '>') r
    let r := r.dropWhile isSpaceChar
    let _ ← ciLit "</div>".toList r
    pure ()).isSome

/-- Match `/<body[^>]*>\s*<noscript>/i` at the head of the input. -/
def matchBodyNoscriptAt (cs : List Char) : Bool :=
  (do
    let r ← ciLit "<body".toList cs
    let r := r.dropWhile (fun c => !(c = '>'))
    let r ← expectClass (· = '>') r
    let r := r.dropWhile isSpaceChar
    let _ ← ciLit "<noscript>".toList r
    pure ()).isSome

/-- Match `/<(table|ul|ol|article|section|main|header)/i` at the head. -/
def matchStructureAt (cs : List Char) : Bool :=
  (do
    let r ← expectClass (· = '<') cs
    let _ ← firstAlt
      ["table".toList, "ul".toList, "ol".toList, "article".toList,
       "section".toList, "main".toList, "header".toList] r
    pure ()).isSome

/-- `pattern.test(s)`: try the matcher at every position of the input. -/
def scanB (f : List Char → Bool) : List Char → Bool
  | [] => f []
  | c :: cs => f (c :: cs) || scanB f cs

/-! ### The text-tag counter

`/<(p|h[1-6]|li|td|span|a|div)[^>]*>[^<]{10,}/gi` match count. -/

/-- Match the tag alternation `(p|h[1-6]|li|td|span|a|div)` (regex order;
the alternatives start with pairwise distinct characters). -/
def matchTextTagName (cs : List Char) : Option (List Char) :=
  match ciLit "p".toList cs with
  | some r => some r
  | none =>
  match cs with
  | 'h' :: d :: r => if '1' ≤ d ∧ d ≤ '6' then some r else matchTextTagTail cs
  | 'H' :: d :: r => if '1' ≤ d ∧ d ≤ '6' then some r else matchTextTagTail cs
  | _ => matchTextTagTail cs
where
  matchTextTagTail (cs : List Char) : Option (List Char) :=
    firstAlt ["li".toList, "td".toList, "span".toList, "a".toList, "div".toList] cs

/-- Match one text-bearing-element occurrence at the head of the input;
on success, return the input after the (greedy) full match. -/
def matchTextTagAt (cs : List Char) : Option (List Char) :=
  do
    let r ← expectClass (· = '<') cs
    let r ← matchTextTagName r
    let r := r.dropWhile (fun c => !(c = '>'))
    let r ← expectClass (· = '>') r
    let text := r.takeWhile (fun c => !(c = '<'))
    if text.length < 10 then none
    else pure (r.dropWhile (fun c => !(c = '<')))

/-- `/g` global match count: scan left to right, restarting after each
match. The fuel equals the input length; every step consumes at least
one character, so the fuel never runs out. -/
def countTextTagsAux : Nat → List Char → Nat
  | 0, _ => 0
  | _ + 1, [] => 0
  | fuel + 1, c :: cs =>
    match matchTextTagAt (c :: cs) with
    | some rest => 1 + countTextTagsAux fuel rest
    | none => countTextTagsAux fuel cs

/-- Number of matches of the text-bearing-element regex. -/
def countTextTags (cs : List Char) : Nat :=
  countTextTagsAux cs.length cs

/-! ## The content quality judge (`isContentSufficient`) -/

/-- `isContentSufficient(content, statusCode)` from src/server/index.ts:
the pure predicate deciding whether a fetched body is a real page. -/
def isContentSufficient (content : List Char) (statusCode : Nat) : Bool :=
  if statusCode = 403 ∨ statusCode = 429 ∨ statusCode = 503 then false
  else if content.length < 500 then false
  else if (scanB matchSpaShellAt content ∨ scanB matchBodyNoscriptAt content)
      ∧ content.length < 2000 then false
  else if 3 ≤ countTextTags content ∧ 1000 ≤ content.length then true
  else if 5000 < content.length then true
  else if scanB matchStructureAt content then true
  else true

/-- The literal empty-shell fragment from the spec. -/
def rootShellLit : List Char := "<div id=\"root\"></div>".toList

/-! ## Domain extraction (`extractDomain`, domainProfileRepository.ts) -/

/-- `String.prototype.toLowerCase`, modelled per character. -/
def lowerStr (cs : List Char) : List Char := cs.map Char.toLower

/-- Case-sensitive literal prefix test (used for the anchored regex of
the fallback branch, which runs on an already-lowercased string). -/
def litPre : List Char → List Char → Bool
  | [], _ => true
  | _ :: _, [] => false
  | l :: ls, c :: cs => c = l && litPre ls cs

/-- The literal `https://`. -/
def schemeHttps : List Char := "https://".toList

/-- The literal `http://`. -/
def schemeHttp : List Char := "http://".toList

/-- The literal `www.`. -/
def wwwDot : List Char := "www.".toList

/-- Length of the leading match of the JS regex `^(https?:\/\/)?(www\.)?`:
both groups optional, matched greedily (`https?` prefers the variant
with `s`; the two scheme spellings cannot both be prefixes). -/
def schemeWwwMatchLen (cs : List Char) : Nat :=
  let schemeLen :=
    if litPre schemeHttps cs then 8
    else if litPre schemeHttp cs then 7
    else 0
  schemeLen + (if litPre wwwDot (cs.drop schemeLen) then 4 else 0)

/-- The catch-branch of `extractDomain`:
`url.toLowerCase().replace(/^(https?:\/\/)?(www\.)?/, "").split("/")[0]`. -/
def extractDomainFallback (url : List Char) : List Char :=
  let lowered := lowerStr url
  (lowered.drop (schemeWwwMatchLen lowered)).takeWhile (fun c => !(c = '/'))

/-- `extractDomain` from domainProfileRepository.ts. The WHATWG `new URL`
parser is a Node builtin, external to the repository; it is supplied as
an oracle returning the parsed hostname, or `none` when parsing throws
(the `catch` branch). -/
def extractDomain (parseHostname : List Char → Option (List Char))
    (url : List Char) : List Char :=
  match parseHostname url with
  | some host =>
    let hostname := lowerStr host
    if litPre wwwDot hostname then hostname.drop 4 else hostname
  | none => extractDomainFallback url

/-- Modelled from the spec (claim C9's wording of the fallback): lowercase
the whole input, strip an optional `http://` or `https://` scheme, strip
a single leading `www.`, and take the segment before the first `/`. -/
def specDomainFallback (url : List Char) : List Char :=
  let s0 := lowerStr url
  let s1 :=
    if litPre schemeHttp s0 then s0.drop 7
    else if litPre schemeHttps s0 then s0.drop 8
    else s0
  let s2 := if litPre wwwDot s1 then s1.drop 4 else s1
  s2.takeWhile (fun c => !(c = '/'))

/-! ## Data model of the fetch pipeline (src/server/index.ts) -/

/-- The four concrete fetch strategies. -/
inductive Engine
  | fast
  | browser
  | stealth
  | unblock
deriving DecidableEq, Repr

/-- The request's `engine` field: a concrete engine or `auto`. -/
inductive EngineChoice
  | auto
  | fast
  | browser
  | stealth
deriving DecidableEq, Repr

/-- `responseType` of a request. -/
inductive RespType
  | text
  | base64
deriving DecidableEq, Repr

/-- `format` of a request. -/
inductive Format
  | html
  | markdown
  | htmlStripped
deriving DecidableEq, Repr

/-- The part of the global configuration the fetch pipeline reads.
JavaScript truthiness of these strings is the empty/non-empty test. -/
structure GlobalConfig where
  browserlessUrl : String
  proxyUrl : String
deriving DecidableEq, Repr

/-- One step of the escalation ladder. -/
structure EscalationStep where
  engine : Engine
  renderJs : Bool
  renderDelayMs : Nat
  useProxy : Bool
  label : String
deriving DecidableEq, Repr

/-- `getAvailableEscalationChain()` from src/server/index.ts. -/
def getAvailableEscalationChain (cfg : GlobalConfig) : List EscalationStep :=
  let hasProxy := cfg.proxyUrl ≠ ""
  let hasBrowserless := cfg.browserlessUrl ≠ ""
  (if hasProxy then
    [⟨Engine.fast, false, 0, true, "Fast + Proxy"⟩]
  else []) ++
  [⟨Engine.fast, false, 0, false, "Fast + Direct"⟩] ++
  (if hasBrowserless then
    [⟨Engine.browser, true, 2000, false, "Browser Stealth + Direct"⟩,
     ⟨Engine.stealth, true, 3000, false, "Patchright Stealth 3s + Direct"⟩,
     ⟨Engine.stealth, true, 5000, false, "Patchright Stealth 5s + Direct"⟩,
     ⟨Engine.unblock, true, 0, false, "Browserless Unblock (nuclear)"⟩]
  else
    [⟨Engine.stealth, true, 3000, false, "Patchright Stealth 3s + Direct"⟩])

/-- A `FetchRequest` body (defaults as destructured by the handler).
Request headers are passed through to engines unchanged and are not
inspected by the scheduling logic, so they are omitted here. -/
structure FetchRequest where
  url : String
  engine : EngineChoice := .auto
  renderJs : Bool := false
  waitForJs : Bool := false
  renderDelayMs : Nat := 0
  proxy : Option String := none
  preset : Option String := none
  format : Format := .html
  responseType : RespType := .text
deriving DecidableEq, Repr

/-- An engine's `FetchResult` (headers omitted; they are passed through). -/
structure FetchResult where
  statusCode : Nat
  content : List Char
  url : String
  engineUsed : String
deriving DecidableEq, Repr

/-- The argument record of one `attemptFetch` call. `none` in the three
optional fields means the option was not passed at the call site. -/
structure AttemptCall where
  url : String
  engine : Engine
  proxy : String
  preset : Option String
  responseType : RespType
  renderJs : Option Bool
  waitForJs : Option Bool
  renderDelayMs : Option Nat
deriving DecidableEq, Repr

/-- One engine invocation: either `attemptFetch` with its options or
`attemptUnblock` (which takes only the URL). -/
inductive Invocation
  | attempt (c : AttemptCall)
  | unblock (url : String)
deriving DecidableEq, Repr

/-! ## Domain profile store (domainProfileRepository.ts, database.ts) -/

/-- A row of the `domain_profiles` table (DB-managed `id` and the
timestamp columns omitted). -/
structure DomainProfile where
  engine : Engine
  render_js : Bool
  render_delay_ms : Nat
  use_proxy : Bool
  preset : Option String
  hit_count : Nat
  last_status_code : Option Nat
deriving DecidableEq, Repr

instance : Nonempty DomainProfile :=
  ⟨⟨.fast, false, 0, true, none, 0, none⟩⟩

/-- `DomainProfileInput`: optional fields model absent (`undefined`)
values, defaulted inside `upsertProfile`. -/
structure DomainProfileInput where
  engine : Engine
  renderJs : Option Bool := none
  renderDelayMs : Option Nat := none
  useProxy : Option Bool := none
  preset : Option String := none
  lastStatusCode : Option Nat := none
deriving DecidableEq, Repr

/-- The profile table: an association list keyed by canonical domain. -/
abbrev Store := List (List Char × DomainProfile)

/-- `getProfile(domain)`. -/
def getProfile (store : Store) (domain : List Char) : Option DomainProfile :=
  (store.find? (fun e => e.1 = domain)).map (fun e => e.2)

/-- The row written by `upsertProfile` for the given input: `render_js`
is `input.renderJs ? 1 : 0`, `render_delay_ms` is `input.renderDelayMs
?? 0`, `use_proxy` is `(input.useProxy ?? true) ? 1 : 0`, `preset` and
`last_status_code` default to NULL; `hit_count` takes the column
default 1 on insert. -/
def profileRowOfInput (input : DomainProfileInput) (hitCount : Nat) : DomainProfile :=
  { engine := input.engine
    render_js := input.renderJs.getD false
    render_delay_ms := input.renderDelayMs.getD 0
    use_proxy := input.useProxy.getD true
    preset := input.preset
    hit_count := hitCount
    last_status_code := input.lastStatusCode }

/-- `upsertProfile(domain, input)`: insert with `hit_count = 1` (column
default) on absence; on conflict overwrite the config fields and bump
`hit_count`. -/
def upsertProfile (store : Store) (domain : List Char)
    (input : DomainProfileInput) : Store :=
  match getProfile store domain with
  | some _ =>
    store.map (fun e =>
      if e.1 = domain then (e.1, profileRowOfInput input (e.2.hit_count + 1)) else e)
  | none => store ++ [(domain, profileRowOfInput input 1)]

/-- `incrementHitCount(domain)`. -/
def incrementHitCount (store : Store) (domain : List Char) : Store :=
  store.map (fun e =>
    if e.1 = domain then (e.1, { e.2 with hit_count := e.2.hit_count + 1 }) else e)

/-! ## JavaScript `||` fallbacks on strings -/

/-- `a || b` where `a` is a possibly-undefined string: the empty string
is falsy. -/
def orElseStr (a : Option String) (b : String) : String :=
  match a with
  | some s => if s = "" then b else s
  | none => b

/-- `a || b` on two possibly-undefined strings. -/
def orElseOptStr (a b : Option String) : Option String :=
  match a with
  | some s => if s = "" then b else some s
  | none => b

/-! ## The request handler (`handleFetchRequest`) -/

/-- The environment of external effects: global config plus oracles for
the URL parser, the engines (`attemptFetch` / `attemptUnblock`), and the
two format converters (`htmlToMarkdown` / `extractMainContent`).
`Except.error` models a thrown exception. -/
structure Env where
  cfg : GlobalConfig
  parseHostname : List Char → Option (List Char)
  engineOracle : Invocation → Except String FetchResult
  mdConvert : List Char → String → Except String (List Char)
  extractConvert : List Char → String → Except String (Option (List Char))

/-- The JSON response of `/api/fetch`. -/
inductive ApiResponse
  | ok (statusCode : Nat) (content : List Char) (markdown : Option (List Char))
       (url : String) (engineUsed : String)
  | fail (error : String)
  | badRequest (error : String)
deriving DecidableEq, Repr

/-- `processContentFormat`: conversion failures are caught and logged;
a `null` extraction result leaves the content unchanged. -/
def processContentFormat (env : Env) (content : List Char) (url : String)
    (format : Format) : List Char × Option (List Char) :=
  match format with
  | .markdown =>
    match env.mdConvert content url with
    | .ok md => (content, some md)
    | .error _ => (content, none)
  | .htmlStripped =>
    match env.extractConvert content url with
    | .ok (some extracted) => (extracted, none)
    | .ok none => (content, none)
    | .error _ => (content, none)
  | .html => (content, none)

/-- `targetProxy = proxy || globalConfig.proxyUrl`. -/
def targetProxy (cfg : GlobalConfig) (req : FetchRequest) : String :=
  orElseStr req.proxy cfg.proxyUrl

/-- Map a non-`auto` engine choice to its engine (the `auto` arm is
unreachable in the explicit path). -/
def engineOfChoice : EngineChoice → Engine
  | .auto => .fast
  | .fast => .fast
  | .browser => .browser
  | .stealth => .stealth

/-- The `attemptFetch` call of the explicit-engine path. -/
def explicitInvocation (cfg : GlobalConfig) (req : FetchRequest) : Invocation :=
  .attempt
    { url := req.url
      engine := engineOfChoice req.engine
      proxy := targetProxy cfg req
      preset := req.preset
      responseType := req.responseType
      renderJs := some req.renderJs
      waitForJs := some req.waitForJs
      renderDelayMs := some req.renderDelayMs }

/-- The single engine call of the cached-profile path: proxy from the
profile's `use_proxy` flag, preset `cachedProfile.preset || preset`,
render settings from the profile; `unblock` profiles route to
`attemptUnblock`. -/
def cachedInvocation (cfg : GlobalConfig) (req : FetchRequest)
    (p : DomainProfile) : Invocation :=
  if p.engine = .unblock then .unblock req.url
  else
    .attempt
      { url := req.url
        engine := p.engine
        proxy := if p.use_proxy then cfg.proxyUrl else ""
        preset := orElseOptStr p.preset req.preset
        responseType := req.responseType
        renderJs := some p.render_js
        waitForJs := none
        renderDelayMs := some p.render_delay_ms }

/-- The forced fast call of the base64 path (only proxy, headers, preset
and responseType are passed). -/
def base64Invocation (cfg : GlobalConfig) (req : FetchRequest) : Invocation :=
  .attempt
    { url := req.url
      engine := .fast
      proxy := targetProxy cfg req
      preset := req.preset
      responseType := req.responseType
      renderJs := none
      waitForJs := none
      renderDelayMs := none }

/-- The engine call made for one escalation step: `unblock` steps route
to `attemptUnblock`; non-fast steps force the `chrome` preset
(`preset || "chrome"`). -/
def stepInvocation (cfg : GlobalConfig) (req : FetchRequest)
    (step : EscalationStep) : Invocation :=
  if step.engine = .unblock then .unblock req.url
  else
    .attempt
      { url := req.url
        engine := step.engine
        proxy := if step.useProxy then cfg.proxyUrl else ""
        preset := if step.engine ≠ .fast
          then some (orElseStr req.preset "chrome")
          else req.preset
        responseType := req.responseType
        renderJs := some step.renderJs
        waitForJs := none
        renderDelayMs := some step.renderDelayMs }

/-- The escalation loop: walk the chain; a thrown error or insufficient
content continues with the next step; the first sufficient result wins.
Returns the trace of engine invocations and the winner (if any). -/
def runEscalation (env : Env) (req : FetchRequest) :
    List EscalationStep → List Invocation × Option (FetchResult × EscalationStep)
  | [] => ([], none)
  | step :: rest =>
    let inv := stepInvocation env.cfg req step
    match env.engineOracle inv with
    | .error _ =>
      let res := runEscalation env req rest
      (inv :: res.1, res.2)
    | .ok r =>
      if isContentSufficient r.content r.statusCode then ([inv], some (r, step))
      else
        let res := runEscalation env req rest
        (inv :: res.1, res.2)

/-- The observable outcome of one `/api/fetch` call: the JSON response,
the trace of engine invocations, the final profile store, and (ghost
field) the engine result the handler reached its response from. -/
structure HandlerOutcome where
  response : ApiResponse
  calls : List Invocation
  store : Store
  engineResult : Option FetchResult

/-- The success response: run the format conversion and emit
`{success, statusCode, content, markdown, headers, url, engineUsed}`. -/
def successResponse (env : Env) (req : FetchRequest) (r : FetchResult) : ApiResponse :=
  let conv := processContentFormat env r.content req.url req.format
  .ok r.statusCode conv.1 conv.2 r.url r.engineUsed

/-- `handleFetchRequest` from src/server/index.ts, as a function of the
environment, the profile store and the request. -/
def handleFetchRequest (env : Env) (store : Store) (req : FetchRequest) :
    HandlerOutcome :=
  if req.url = "" then
    { response := .badRequest "URL is required", calls := [], store := store,
      engineResult := none }
  else
    let domain := extractDomain env.parseHostname req.url.toList
    match req.engine with
    | .fast | .browser | .stealth =>
      let inv := explicitInvocation env.cfg req
      match env.engineOracle inv with
      | .ok r =>
        { response := successResponse env req r, calls := [inv], store := store,
          engineResult := some r }
      | .error e =>
        { response := .fail e, calls := [inv], store := store, engineResult := none }
    | .auto =>
      match getProfile store domain with
      | some p =>
        let store1 := incrementHitCount store domain
        let inv := cachedInvocation env.cfg req p
        match env.engineOracle inv with
        | .ok r =>
          { response := successResponse env req r, calls := [inv], store := store1,
            engineResult := some r }
        | .error e =>
          { response := .fail e, calls := [inv], store := store1, engineResult := none }
      | none =>
        match req.responseType with
        | .base64 =>
          let inv := base64Invocation env.cfg req
          match env.engineOracle inv with
          | .ok r =>
            { response := successResponse env req r, calls := [inv], store := store,
              engineResult := some r }
          | .error e =>
            { response := .fail e, calls := [inv], store := store, engineResult := none }
        | .text =>
          let esc := runEscalation env req (getAvailableEscalationChain env.cfg)
          match esc.2 with
          | none =>
            { response := .fail ("All auto-retry escalation steps failed for " ++ req.url),
              calls := esc.1, store := store, engineResult := none }
          | some (r, w) =>
            let store2 :=
              if w.engine = .fast ∧ w.useProxy = true then store
              else upsertProfile store domain
                { engine := w.engine
                  renderJs := some w.renderJs
                  renderDelayMs := some w.renderDelayMs
                  useProxy := some w.useProxy
                  preset := if w.engine ≠ .fast then some "chrome" else none
                  lastStatusCode := some r.statusCode }
            { response := successResponse env req r, calls := esc.1, store := store2,
              engineResult := some r }

/-! ## Browser pool slot lifecycle (src/server/browserPool.ts)

One slot's counters and connection handle, with connection handles
modelled as generation numbers (`conn = some id`; a fresh connection
gets a fresh id, so a changed id models a changed handle). Navigation
outcomes are supplied as a script: `ok` (navigation and content read
succeed), `errConn` (the tab operation throws while the browser is
still connected), `errDisc` (the tab operation throws and the browser
has disconnected — the `disconnected` listener has fired, clearing the
handle and the stale flag). -/

/-- `MAX_TABS_BEFORE_RECYCLE` (200). -/
def MAX_TABS_BEFORE_RECYCLE : Nat := 200

/-- Mutable state of one `BrowserSlot` (the pool-wide fresh-id counter is
carried along to generate connection handles). -/
@[ext]
structure SlotState where
  conn : Option Nat
  nextConnId : Nat
  activeTabCount : Nat
  tabsUsed : Nat
  stale : Bool
deriving DecidableEq, Repr

/-- `_connectSlot`: open a fresh connection and reset the per-instance
counters (`tabsUsed = 0`, `stale = false`). -/
def connectSlot (s : SlotState) : SlotState :=
  { s with conn := some s.nextConnId, nextConnId := s.nextConnId + 1,
           tabsUsed := 0, stale := false }

/-- `_disconnectSlot`: drop the connection handle. -/
def disconnectSlot (s : SlotState) : SlotState :=
  { s with conn := none }

/-- `_ensureSlotConnected`: recycle if stale with no active tabs, then
reconnect if there is no live connection. -/
def ensureSlotConnected (s : SlotState) : SlotState :=
  let s1 := if s.stale = true ∧ s.activeTabCount = 0 ∧ s.conn.isSome then disconnectSlot s else s
  if s1.conn.isSome then s1 else connectSlot s1

/-- Outcome of one tab body (navigate / render / read). -/
inductive TabOutcome
  | ok
  | errConn
  | errDisc
deriving DecidableEq, Repr

/-- The entry of `_fetchInSlot`: ensure the slot is connected, increment
`activeTabCount` and `tabsUsed`, and mark the slot stale when the tab
limit is reached. -/
def enterTab (s0 : SlotState) : SlotState :=
  let s := ensureSlotConnected s0
  let s := { s with activeTabCount := s.activeTabCount + 1, tabsUsed := s.tabsUsed + 1 }
  if MAX_TABS_BEFORE_RECYCLE ≤ s.tabsUsed ∧ s.stale = false then { s with stale := true } else s

/-- `_fetchInSlot` with `allowRetry = false`: any error propagates; the
`finally` block decrements `activeTabCount` on every exit path. -/
def fetchInSlotNoRetry (s0 : SlotState) (o : TabOutcome) : SlotState × Bool :=
  let s := enterTab s0
  match o with
  | .ok => ({ s with activeTabCount := s.activeTabCount - 1 }, true)
  | .errConn => ({ s with activeTabCount := s.activeTabCount - 1 }, false)
  | .errDisc =>
    let s := { s with conn := none, stale := false }
    ({ s with activeTabCount := s.activeTabCount - 1 }, false)

/-- `_fetchInSlot` with `allowRetry = true` (as called by `fetchInTab`):
on an error with the browser disconnected, retry once on the same slot
(the retry runs to completion before the outer `finally` decrements);
a connected-error propagates. `retryOutcome` scripts the retry's tab
body. Returns the final slot state and whether the fetch succeeded. -/
def fetchInSlot (s0 : SlotState) (o : TabOutcome) (retryOutcome : TabOutcome) :
    SlotState × Bool :=
  let s := enterTab s0
  match o with
  | .ok => ({ s with activeTabCount := s.activeTabCount - 1 }, true)
  | .errConn => ({ s with activeTabCount := s.activeTabCount - 1 }, false)
  | .errDisc =>
    let s := { s with conn := none, stale := false }
    let res := fetchInSlotNoRetry s retryOutcome
    ({ res.1 with activeTabCount := res.1.activeTabCount - 1 }, res.2)

/-- A sequence of completed fetches through one slot (each scripted by a
primary outcome and a retry outcome). -/
def runFetches (s : SlotState) : List (TabOutcome × TabOutcome) → SlotState
  | [] => s
  | o :: rest => runFetches (fetchInSlot s o.1 o.2).1 rest

/-- The initial state of a slot (as built by the pool constructor). -/
def initSlot : SlotState :=
  { conn := none, nextConnId := 0, activeTabCount := 0, tabsUsed := 0, stale := false }

/-- A scan succeeds whenever the matcher fires at some suffix. -/
theorem scanB_of_suffix (f : List Char → Bool) (a s : List Char)
    (hf : f s = true) : scanB f (a ++ s) = true := by
  induction a with
  | nil =>
    cases s with
    | nil => simpa using hf
    | cons c cs => simp [scanB, hf]
  | cons c a ih => simp [scanB, ih]

/-- The SPA-shell matcher fires on the literal `<div id="root"></div>`
whatever follows it. -/
theorem matchSpaShellAt_rootLit (b : List Char) :
    matchSpaShellAt (rootShellLit ++ b) = true := rfl

/-- Claim C7: every string longer than 5000 characters is accepted by the
content quality judge at status 200; the length-5000 rule dominates the
SPA-shell rule, which only rejects below length 2000. -/
theorem claim_C7_long_content_sufficient (h : List Char)
    (hl : 5000 < h.length) : isContentSufficient h 200 = true := by
  unfold isContentSufficient
  rw [if_neg (by decide)]
  rw [if_neg (by omega)]
  rw [if_neg (by rintro ⟨-, h2⟩; omega)]
  split
  · rfl
  · rfl

/-- Witness for C7 at a concrete 5001-character input. -/
theorem claim_C7_witness :
    5000 < (List.replicate 5001 'a').length ∧
      isContentSufficient (List.replicate 5001 'a') 200 = true := by
  have hl : 5000 < (List.replicate 5001 'a').length := by
    rw [List.length_replicate]
    omega
  exact ⟨hl, claim_C7_long_content_sufficient _ hl⟩

/-- Claim C8: any string that contains the literal fragment
`<div id="root"></div>` and is shorter than 2000 characters is rejected
by the quality judge at status 200 (below 500 characters the short rule
fires, between 500 and 2000 the SPA-shell rule fires). -/
theorem claim_C8_shell_rejected (h a b : List Char)
    (hdecomp : h = a ++ rootShellLit ++ b) (hlen : h.length < 2000) :
    isContentSufficient h 200 = false := by
  have hscan : scanB matchSpaShellAt h = true := by
    subst hdecomp
    rw [List.append_assoc]
    exact scanB_of_suffix _ _ _ (matchSpaShellAt_rootLit b)
  unfold isContentSufficient
  rw [if_neg (by decide)]
  by_cases h5 : h.length < 500
  · rw [if_pos h5]
  · rw [if_neg h5, if_pos ⟨Or.inl hscan, hlen⟩]

/-- Witness for C8 at a concrete input: 600 filler characters followed by
the shell fragment (621 characters in total, so the SPA-shell branch is
the one that fires). -/
theorem claim_C8_witness :
    (List.replicate 600 'x' ++ rootShellLit ++ ([] : List Char)).length < 2000 ∧
      isContentSufficient (List.replicate 600 'x' ++ rootShellLit ++ ([] : List Char)) 200 = false := by
  have hlen : (List.replicate 600 'x' ++ rootShellLit ++ ([] : List Char)).length < 2000 := by
    rw [List.append_nil, List.length_append, List.length_replicate]
    decide
  exact ⟨hlen, claim_C8_shell_rejected _ _ _ rfl hlen⟩

/-! ## Declarative view of the escalation walk, and concrete fixtures -/

/-- The quality judge's verdict on one ladder step: the engine result if
the call succeeds and the judge accepts it, `none` otherwise. -/
def stepAccepts (env : Env) (req : FetchRequest) (step : EscalationStep) :
    Option FetchResult :=
  match env.engineOracle (stepInvocation env.cfg req step) with
  | .ok r => if isContentSufficient r.content r.statusCode then some r else none
  | .error _ => none

/-- Modelled from the spec: the first ladder step whose result the
quality judge accepts, with its index and result ("the first step
producing a sufficient result wins"). -/
def firstWin (env : Env) (req : FetchRequest) :
    List EscalationStep → Option (Nat × FetchResult × EscalationStep)
  | [] => none
  | step :: rest =>
    match stepAccepts env req step with
    | some r => some (0, r, step)
    | none => (firstWin env req rest).map (fun x => (x.1 + 1, x.2.1, x.2.2))

/-- A 501-character body: accepted by the judge at status 200. -/
def contentOk : List Char := List.replicate 501 'a'

/-- The canonical domain of the fixture URL. -/
def exDomainChars : List Char := "example.com".toList

/-- Fixture config: both a remote browser endpoint and a proxy. -/
def cfgFix : GlobalConfig := ⟨"ws://b", "http://p"⟩

/-- Fixture URL parser: always parses to `example.com`. -/
def parseFix : List Char → Option (List Char) := fun _ => some exDomainChars

/-- Fixture engine result (status 200, sufficient content). -/
def resOk : FetchResult := ⟨200, contentOk, "u", "e"⟩

/-- Every engine call succeeds; format converters throw. -/
def envAllOk : Env :=
  ⟨cfgFix, parseFix, fun _ => .ok resOk, fun _ _ => .error "conv",
   fun _ _ => .error "conv"⟩

/-- Proxied calls fail, direct calls succeed; unblock fails. -/
def envStepwise : Env :=
  ⟨cfgFix, parseFix,
   fun inv =>
     match inv with
     | .attempt c => if c.proxy = "http://p" then .error "blocked" else .ok resOk
     | .unblock _ => .error "nope",
   fun _ _ => .error "conv", fun _ _ => .error "conv"⟩

/-- Every engine call fails. -/
def envAllFail : Env :=
  ⟨cfgFix, parseFix, fun _ => .error "down", fun _ _ => .error "conv",
   fun _ _ => .error "conv"⟩

/-- A cached browser profile for `example.com`. -/
def profBrowserFix : DomainProfile :=
  ⟨.browser, true, 2000, false, some "chrome", 3, some 200⟩

/-- A cached fast+direct profile with no stored preset. -/
def profFastFix : DomainProfile := ⟨.fast, false, 0, false, none, 1, some 200⟩

/-- A store holding the browser profile for `example.com`. -/
def storeBrowserFix : Store := [(exDomainChars, profBrowserFix)]

/-- A store holding the presetless fast profile for `example.com`. -/
def storeFastFix : Store := [(exDomainChars, profFastFix)]

/-- A base64 request in auto mode. -/
def reqB64Fix : FetchRequest := { url := "https://example.com/x", responseType := .base64 }

/-- A plain auto-mode text request. -/
def reqAutoFix : FetchRequest := { url := "https://example.com/x" }

/-- An auto-mode request that asks for the `chrome` preset. -/
def reqPresetFix : FetchRequest := { url := "https://example.com/x", preset := some "chrome" }

/-- An explicit fast-engine request asking for markdown. -/
def reqMdFix : FetchRequest :=
  { url := "https://example.com/x", engine := .fast, format := .markdown }

/-! ## Browser pool lemmas -/

/-- `_ensureSlotConnected` never changes `activeTabCount`. -/
theorem ensure_active (s : SlotState) :
    (ensureSlotConnected s).activeTabCount = s.activeTabCount := by
  unfold ensureSlotConnected disconnectSlot connectSlot
  dsimp only
  split <;> split <;> rfl

/-- Entering a tab increments `activeTabCount` by one. -/
theorem enterTab_active (s : SlotState) :
    (enterTab s).activeTabCount = s.activeTabCount + 1 := by
  unfold enterTab
  dsimp only
  split <;> simp [ensure_active]

/-- The retry-free fetch restores `activeTabCount`. -/
theorem fetchInSlotNoRetry_active (s : SlotState) (o : TabOutcome) :
    (fetchInSlotNoRetry s o).1.activeTabCount = s.activeTabCount := by
  cases o <;> simp [fetchInSlotNoRetry, enterTab_active]

/-- Every exit path of `_fetchInSlot` (success, connected error, or
disconnect-retry) restores `activeTabCount` to its pre-fetch value. -/
theorem fetchInSlot_active (s : SlotState) (o1 o2 : TabOutcome) :
    (fetchInSlot s o1 o2).1.activeTabCount = s.activeTabCount := by
  cases o1 <;> simp [fetchInSlot, enterTab_active, fetchInSlotNoRetry_active]

/-- Running fetches over an appended script composes. -/
theorem runFetches_append (l1 l2 : List (TabOutcome × TabOutcome)) (s : SlotState) :
    runFetches s (l1 ++ l2) = runFetches (runFetches s l1) l2 := by
  induction l1 generalizing s with
  | nil => rfl
  | cons o rest ih => simp [runFetches, ih]

/-- One successful fetch on a connected, non-stale, idle slot: the tab
counter advances and the slot goes stale exactly when the limit is hit. -/
theorem fetch_ok_clean (s : SlotState) (c : Nat) (o2 : TabOutcome)
    (hconn : s.conn = some c) (hstale : s.stale = false) (hactive : s.activeTabCount = 0) :
    fetchInSlot s .ok o2 =
      ({ s with
          activeTabCount := 0
          tabsUsed := s.tabsUsed + 1
          stale := decide (200 ≤ s.tabsUsed + 1) }, true) := by
  obtain ⟨cn, ni, act, tu, st⟩ := s
  obtain rfl : cn = some c := hconn
  obtain rfl : st = false := hstale
  obtain rfl : act = 0 := hactive
  unfold fetchInSlot enterTab ensureSlotConnected disconnectSlot connectSlot
    MAX_TABS_BEFORE_RECYCLE
  by_cases h2 : 200 ≤ tu + 1
  · simp [h2]
  · simp [h2]

/-- A clean run of `N` successful fetches on a connected, non-stale, idle
slot within the tab budget: the connection handle is untouched,
`tabsUsed` advances by `N`, and the slot is stale exactly when the
budget is exhausted. -/
theorem runFetches_ok_clean :
    ∀ (N : Nat) (s : SlotState) (c : Nat),
      s.conn = some c → s.stale = false → s.activeTabCount = 0 →
      s.tabsUsed + N ≤ 200 →
      runFetches s (List.replicate N (TabOutcome.ok, TabOutcome.ok)) =
        { conn := s.conn
          nextConnId := s.nextConnId
          activeTabCount := 0
          tabsUsed := s.tabsUsed + N
          stale := decide (0 < N ∧ s.tabsUsed + N = 200) } := by
  intro N
  induction N with
  | zero =>
    intro s c hconn hstale hactive _
    obtain ⟨cn, ni, act, tu, st⟩ := s
    obtain rfl : st = false := hstale
    obtain rfl : act = 0 := hactive
    simp [runFetches]
  | succ M ih =>
    intro s c hconn hstale hactive hN
    obtain ⟨cn, ni, act, tu, st⟩ := s
    obtain rfl : cn = some c := hconn
    obtain rfl : st = false := hstale
    obtain rfl : act = 0 := hactive
    simp only at hN
    rw [List.replicate_succ]
    show runFetches (fetchInSlot _ .ok .ok).1 _ = _
    rw [fetch_ok_clean _ c .ok rfl rfl rfl]
    cases M with
    | zero =>
      simp only [List.replicate_zero, runFetches]
      apply SlotState.ext <;> dsimp only <;>
        first
        | rfl
        | omega
        | (rw [decide_eq_decide]; omega)
    | succ K =>
      have hst : decide (200 ≤ tu + 1) = false := by
        rw [decide_eq_false_iff_not]
        omega
      rw [ih _ c rfl hst rfl (by show tu + 1 + (K + 1) ≤ 200; omega)]
      apply SlotState.ext <;> dsimp only <;>
        first
        | rfl
        | omega
        | (rw [decide_eq_decide]; omega)

/-- Claim C5 (amended): every `_fetchInSlot` call increments
`activeTabCount` and `tabsUsed` before navigating and decrements
`activeTabCount` on every exit path, so `activeTabCount` returns to its
pre-fetch value after any completed fetch; after `N` successful fetches
on a connected, non-stale, idle slot whose tab budget is not exhausted
(`tabsUsed + N ≤ 200`), `activeTabCount = 0` and `tabsUsed` has advanced
by exactly `N`. (Beyond the budget, recycling resets `tabsUsed` — see the
counterexample.) -/
theorem claim_C5_tab_accounting (q s : SlotState) (o1 o2 : TabOutcome) (c N : Nat)
    (hconn : s.conn = some c) (hstale : s.stale = false)
    (hactive : s.activeTabCount = 0) (hN : s.tabsUsed + N ≤ 200) :
    (fetchInSlot q o1 o2).1.activeTabCount = q.activeTabCount
    ∧ (runFetches s (List.replicate N (TabOutcome.ok, TabOutcome.ok))).activeTabCount = 0
    ∧ (runFetches s (List.replicate N (TabOutcome.ok, TabOutcome.ok))).tabsUsed
        = s.tabsUsed + N := by
  refine ⟨fetchInSlot_active q o1 o2, ?_, ?_⟩
  all_goals rw [runFetches_ok_clean N s c hconn hstale hactive hN]

/-- Witness for the amended C5 at a freshly connected slot and `N = 3`. -/
theorem claim_C5_witness :
    (fetchInSlot ⟨some 0, 1, 0, 0, false⟩ .errDisc .ok).1.activeTabCount = 0
    ∧ (runFetches ⟨some 0, 1, 0, 0, false⟩
        (List.replicate 3 (TabOutcome.ok, TabOutcome.ok))).activeTabCount = 0
    ∧ (runFetches ⟨some 0, 1, 0, 0, false⟩
        (List.replicate 3 (TabOutcome.ok, TabOutcome.ok))).tabsUsed = 0 + 3 :=
  claim_C5_tab_accounting ⟨some 0, 1, 0, 0, false⟩ ⟨some 0, 1, 0, 0, false⟩
    .errDisc .ok 0 3 rfl rfl rfl (by decide)

/-- Counterexample to claim C5 as stated: after 201 completed successful
fetches through a fresh slot, `activeTabCount = 0` holds but
`tabsUsed = 1`, not `201` — the 201st fetch found the slot stale and
idle, recycled the connection and reset `tabsUsed` to 0 before counting
its own tab. -/
theorem claim_C5_counterexample :
    (runFetches initSlot (List.replicate 201 (TabOutcome.ok, TabOutcome.ok))).activeTabCount = 0
    ∧ (runFetches initSlot (List.replicate 201 (TabOutcome.ok, TabOutcome.ok))).tabsUsed = 1
    ∧ ¬ (runFetches initSlot
          (List.replicate 201 (TabOutcome.ok, TabOutcome.ok))).tabsUsed = 201 := by
  have hrun : runFetches initSlot (List.replicate 201 (TabOutcome.ok, TabOutcome.ok)) =
      runFetches (⟨some 0, 1, 0, 200, true⟩ : SlotState)
        (List.replicate 1 (TabOutcome.ok, TabOutcome.ok)) := by
    rw [show (201 : Nat) = 1 + 199 + 1 from rfl, List.replicate_add, List.replicate_add,
      runFetches_append, runFetches_append]
    rw [show runFetches initSlot (List.replicate 1 (TabOutcome.ok, TabOutcome.ok)) =
          (⟨some 0, 1, 0, 1, false⟩ : SlotState) from by decide]
    rw [runFetches_ok_clean 199 _ 0 rfl rfl rfl (by decide)]
    rfl
  rw [hrun]
  refine ⟨by decide, by decide, by decide⟩

/-- One successful fetch on a connected, non-stale slot (any number of
active tabs): the connection is kept, `tabsUsed` advances, staleness is
set exactly at the tab limit, and `activeTabCount` is restored. -/
theorem fetch_ok_noRecycle (s : SlotState) (c : Nat) (o2 : TabOutcome)
    (hconn : s.conn = some c) (hstale : s.stale = false) :
    fetchInSlot s .ok o2 =
      ({ s with
          tabsUsed := s.tabsUsed + 1
          stale := decide (200 ≤ s.tabsUsed + 1) }, true) := by
  obtain ⟨cn, ni, act, tu, st⟩ := s
  obtain rfl : cn = some c := hconn
  obtain rfl : st = false := hstale
  unfold fetchInSlot enterTab ensureSlotConnected disconnectSlot connectSlot
    MAX_TABS_BEFORE_RECYCLE
  by_cases h2 : 200 ≤ tu + 1
  · simp [h2]
  · simp [h2]

/-- `_ensureSlotConnected` on a slot with active tabs and a live
connection does nothing: the current connection keeps serving. -/
theorem ensure_busy (s : SlotState) (hactive : s.activeTabCount ≠ 0)
    (hconn : s.conn.isSome) : ensureSlotConnected s = s := by
  obtain ⟨cn, ni, act, tu, st⟩ := s
  unfold ensureSlotConnected disconnectSlot connectSlot
  simp only at hactive hconn
  simp [hactive, hconn]

/-- `_ensureSlotConnected` on a stale idle slot recycles: teardown plus a
fresh connection with `tabsUsed` and `stale` reset. -/
theorem ensure_recycles (s : SlotState) (hstale : s.stale = true)
    (hactive : s.activeTabCount = 0) (hconn : s.conn.isSome) :
    ensureSlotConnected s =
      { s with
          conn := some s.nextConnId
          nextConnId := s.nextConnId + 1
          tabsUsed := 0
          stale := false } := by
  obtain ⟨cn, ni, act, tu, st⟩ := s
  obtain rfl : st = true := hstale
  obtain rfl : act = 0 := hactive
  unfold ensureSlotConnected disconnectSlot connectSlot
  simp only at hconn
  simp [hconn]

/-- A successful fetch on a stale idle slot: recycle first, then count
the single new tab on the fresh connection. -/
theorem fetch_stale_idle (s : SlotState) (o2 : TabOutcome)
    (hstale : s.stale = true) (hactive : s.activeTabCount = 0)
    (hconn : s.conn.isSome) :
    fetchInSlot s .ok o2 =
      ({ s with
          conn := some s.nextConnId
          nextConnId := s.nextConnId + 1
          activeTabCount := 0
          tabsUsed := 1
          stale := false }, true) := by
  obtain ⟨cn, ni, act, tu, st⟩ := s
  obtain rfl : st = true := hstale
  obtain rfl : act = 0 := hactive
  simp only at hconn
  unfold fetchInSlot enterTab ensureSlotConnected disconnectSlot connectSlot
    MAX_TABS_BEFORE_RECYCLE
  simp [hconn]

/-- Claim C6: crossing the 200-tab limit marks the slot stale without
refusing further tabs on the current connection (including while tabs
are still active); the next fetch that finds the stale slot idle tears
the connection down and reconnects before opening its tab — at that
point `tabsUsed` is reset to 0 and `stale` cleared — so after the fetch
the connection handle has changed and `tabsUsed` counts only the new
tab. -/
theorem claim_C6_stale_recycle (s : SlotState) (c : Nat) (o2 : TabOutcome) :
    (s.conn = some c → s.stale = false → s.tabsUsed = 199 →
      (fetchInSlot s .ok o2).1.stale = true
      ∧ (fetchInSlot s .ok o2).1.tabsUsed = 200
      ∧ (fetchInSlot s .ok o2).1.conn = some c
      ∧ (fetchInSlot s .ok o2).2 = true)
    ∧ (s.stale = true → 200 ≤ s.tabsUsed → 0 < s.activeTabCount → s.conn = some c →
        (ensureSlotConnected s).conn = some c
        ∧ (ensureSlotConnected s).tabsUsed = s.tabsUsed)
    ∧ (s.stale = true → 200 ≤ s.tabsUsed → s.activeTabCount = 0 → s.conn = some c →
        c < s.nextConnId →
        (ensureSlotConnected s).conn = some s.nextConnId
        ∧ (ensureSlotConnected s).conn ≠ some c
        ∧ (ensureSlotConnected s).tabsUsed = 0
        ∧ (ensureSlotConnected s).stale = false)
    ∧ (s.stale = true → 200 ≤ s.tabsUsed → s.activeTabCount = 0 → s.conn = some c →
        c < s.nextConnId →
        (fetchInSlot s .ok o2).1.conn = some s.nextConnId
        ∧ (fetchInSlot s .ok o2).1.conn ≠ some c
        ∧ (fetchInSlot s .ok o2).1.tabsUsed = 1
        ∧ (fetchInSlot s .ok o2).1.stale = false) := by
  refine ⟨?_, ?_, ?_, ?_⟩
  · intro hconn hstale htu
    rw [fetch_ok_noRecycle s c o2 hconn hstale]
    refine ⟨?_, ?_, hconn, rfl⟩
    · show decide (200 ≤ s.tabsUsed + 1) = true
      rw [decide_eq_true_eq]
      omega
    · show s.tabsUsed + 1 = 200
      omega
  · intro _ _ hbusy hconn
    rw [ensure_busy s (by omega) (by simp [hconn])]
    exact ⟨hconn, rfl⟩
  · intro hstale _ hactive hconn hlt
    rw [ensure_recycles s hstale hactive (by simp [hconn])]
    refine ⟨rfl, ?_, rfl, rfl⟩
    intro heq
    simp only [Option.some.injEq] at heq
    omega
  · intro hstale _ hactive hconn hlt
    rw [fetch_stale_idle s o2 hstale hactive (by simp [hconn])]
    refine ⟨rfl, ?_, rfl, rfl⟩
    intro heq
    simp only [Option.some.injEq] at heq
    omega

/-- Witness for C6 at concrete slots: one crossing the limit
(`tabsUsed = 199`), one stale-and-busy, one stale-and-idle. -/
theorem claim_C6_witness :
    ((fetchInSlot ⟨some 0, 1, 0, 199, false⟩ .ok .ok).1.stale = true
      ∧ (fetchInSlot ⟨some 0, 1, 0, 199, false⟩ .ok .ok).1.tabsUsed = 200
      ∧ (fetchInSlot ⟨some 0, 1, 0, 199, false⟩ .ok .ok).1.conn = some 0
      ∧ (fetchInSlot ⟨some 0, 1, 0, 199, false⟩ .ok .ok).2 = true)
    ∧ ((ensureSlotConnected ⟨some 0, 1, 2, 200, true⟩).conn = some 0
      ∧ (ensureSlotConnected ⟨some 0, 1, 2, 200, true⟩).tabsUsed = 200)
    ∧ ((fetchInSlot ⟨some 0, 1, 0, 200, true⟩ .ok .ok).1.conn = some 1
      ∧ (fetchInSlot ⟨some 0, 1, 0, 200, true⟩ .ok .ok).1.conn ≠ some 0
      ∧ (fetchInSlot ⟨some 0, 1, 0, 200, true⟩ .ok .ok).1.tabsUsed = 1
      ∧ (fetchInSlot ⟨some 0, 1, 0, 200, true⟩ .ok .ok).1.stale = false) :=
  ⟨(claim_C6_stale_recycle ⟨some 0, 1, 0, 199, false⟩ 0 .ok).1 rfl rfl rfl,
   (claim_C6_stale_recycle ⟨some 0, 1, 2, 200, true⟩ 0 .ok).2.1 rfl (by decide) (by decide) rfl,
   (claim_C6_stale_recycle ⟨some 0, 1, 0, 200, true⟩ 0 .ok).2.2.2 rfl (by decide) rfl rfl
     (by decide)⟩

/-- `litPre` really is the prefix relation. -/
theorem litPre_iff (p s : List Char) : litPre p s = true ↔ ∃ t, s = p ++ t := by
  induction p generalizing s with
  | nil => simp [litPre]
  | cons l ls ih =>
    cases s with
    | nil => simp [litPre]
    | cons c cs =>
      constructor
      · intro h
        simp only [litPre, Bool.and_eq_true, decide_eq_true_eq] at h
        obtain ⟨rfl, ht⟩ := h
        obtain ⟨t, rfl⟩ := (ih cs).mp ht
        exact ⟨t, rfl⟩
      · rintro ⟨t, ht⟩
        rw [List.cons_append, List.cons.injEq] at ht
        obtain ⟨rfl, h2⟩ := ht
        simp [litPre, (ih cs).mpr ⟨t, h2⟩]

/-- `http://` is not a prefix of `https://…`. -/
theorem litPre_http_of_https (t : List Char) :
    litPre schemeHttp (schemeHttps ++ t) = false := rfl

/-- The fallback branch of `extractDomain` computes exactly the
transformation described by the spec. -/
theorem extractDomainFallback_eq_spec (url : List Char) :
    extractDomainFallback url = specDomainFallback url := by
  unfold extractDomainFallback specDomainFallback schemeWwwMatchLen
  dsimp only
  generalize lowerStr url = L
  cases h1 : litPre schemeHttps L with
  | true =>
    have h2 : litPre schemeHttp L = false := by
      obtain ⟨t, rfl⟩ := (litPre_iff _ _).mp h1
      exact litPre_http_of_https t
    cases h3 : litPre wwwDot (L.drop 8) with
    | true => simp [h1, h2, h3, List.drop_drop]
    | false => simp [h1, h2, h3]
  | false =>
    cases h2 : litPre schemeHttp L with
    | true =>
      cases h3 : litPre wwwDot (L.drop 7) with
      | true => simp [h1, h2, h3, List.drop_drop]
      | false => simp [h1, h2, h3]
    | false =>
      cases h3 : litPre wwwDot L with
      | true => simp [h1, h2, h3, List.drop_drop]
      | false => simp [h1, h2, h3]

/-- Claim C9: `extractDomain` is total — for any input, including one the
URL parser rejects, it returns a string; on parse failure it performs the
described fallback (lowercase, strip optional scheme and one leading
`www.`, take the segment before the first `/`), so domain keying in
`/api/fetch` never raises on a malformed `url` field. -/
theorem claim_C9_extractDomain_total_fallback
    (parseHostname : List Char → Option (List Char)) (url : List Char)
    (hfail : parseHostname url = none) :
    extractDomain parseHostname url = specDomainFallback url := by
  unfold extractDomain
  rw [hfail]
  exact extractDomainFallback_eq_spec url

/-- Witness for C9 on a concrete malformed input with a parser oracle that
always fails. -/
theorem claim_C9_witness :
    (fun (_ : List Char) => (none : Option (List Char))) "HTTP://www.Ex ample..com/path/x".toList = none ∧
      extractDomain (fun _ => none) "HTTP://www.Ex ample..com/path/x".toList =
        specDomainFallback "HTTP://www.Ex ample..com/path/x".toList :=
  ⟨rfl, claim_C9_extractDomain_total_fallback _ _ rfl⟩

/-! ## Profile store lemmas -/

/-- `incrementHitCount` bumps exactly the addressed domain's counter. -/
theorem getProfile_incrementHitCount (store : Store) (domain : List Char) :
    getProfile (incrementHitCount store domain) domain =
      (getProfile store domain).map (fun p => { p with hit_count := p.hit_count + 1 }) := by
  induction store with
  | nil => rfl
  | cons e rest ih =>
    by_cases h : e.1 = domain
    · simp [incrementHitCount, getProfile, List.find?, h]
    · simp only [incrementHitCount, getProfile, List.find?, List.map] at ih ⊢
      simpa [h] using ih

/-- Appending a row for an absent domain makes it findable. -/
theorem getProfile_append_miss (store : Store) (domain : List Char) (p : DomainProfile)
    (hmiss : getProfile store domain = none) :
    getProfile (store ++ [(domain, p)]) domain = some p := by
  induction store with
  | nil =>
    rw [List.nil_append]
    unfold getProfile
    rw [List.find?]
    rw [show (decide (((domain, p) : List Char × DomainProfile).1 = domain)) = true from by simp]
    rfl
  | cons e rest ih =>
    by_cases h : e.1 = domain
    · exfalso
      simp [getProfile, List.find?, h] at hmiss
    · have hmiss2 : getProfile rest domain = none := by
        simpa [getProfile, List.find?, h] using hmiss
      simpa [getProfile, List.find?, h] using ih hmiss2

/-- Upserting an absent domain appends a fresh row with `hit_count = 1`. -/
theorem getProfile_upsert_miss (store : Store) (domain : List Char)
    (input : DomainProfileInput) (hmiss : getProfile store domain = none) :
    getProfile (upsertProfile store domain input) domain =
      some (profileRowOfInput input 1) := by
  unfold upsertProfile
  rw [hmiss]
  exact getProfile_append_miss store domain _ hmiss

/-! ## Claim C1 -/

/-- Counterexample to claim C1 as stated: an auto-mode base64 request for
a domain whose cached profile names the browser engine invokes the
browser engine, not the fast engine — the cached-profile branch is
checked before the base64 forcing. -/
theorem claim_C1_counterexample :
    ((handleFetchRequest envAllOk storeBrowserFix reqB64Fix).calls.all
      (fun inv =>
        match inv with
        | .attempt c => c.engine = Engine.fast
        | .unblock _ => false)) = false := by decide

/-- Claim C1 (amended): in auto mode with `responseType = base64`, when
the request's domain has no cached profile, the fast engine runs exactly
once and no other engine is invoked; when a cached profile exists, the
cached profile's engine is used instead. -/
theorem claim_C1_base64_forces_fast (env : Env) (store : Store) (req : FetchRequest)
    (hurl : ¬ req.url = "") (hauto : req.engine = .auto)
    (hb64 : req.responseType = .base64)
    (hmiss : getProfile store (extractDomain env.parseHostname req.url.toList) = none) :
    (handleFetchRequest env store req).calls =
      [Invocation.attempt
        { url := req.url
          engine := .fast
          proxy := targetProxy env.cfg req
          preset := req.preset
          responseType := .base64
          renderJs := none
          waitForJs := none
          renderDelayMs := none }] := by
  obtain ⟨url, eng, rj, wj, rd, pr, ps, fm, rt⟩ := req
  cases hauto
  cases hb64
  simp only at hurl hmiss ⊢
  unfold handleFetchRequest
  dsimp only
  rw [if_neg hurl]
  rw [hmiss]
  cases env.engineOracle (base64Invocation env.cfg ⟨url, .auto, rj, wj, rd, pr, ps, fm, .base64⟩) <;> rfl

/-- Witness for the amended C1 on the fixture. -/
theorem claim_C1_witness :
    ¬ reqB64Fix.url = ""
    ∧ getProfile ([] : Store)
        (extractDomain envAllOk.parseHostname reqB64Fix.url.toList) = none
    ∧ (handleFetchRequest envAllOk [] reqB64Fix).calls =
      [Invocation.attempt
        { url := reqB64Fix.url
          engine := .fast
          proxy := targetProxy envAllOk.cfg reqB64Fix
          preset := reqB64Fix.preset
          responseType := .base64
          renderJs := none
          waitForJs := none
          renderDelayMs := none }] :=
  ⟨by decide, rfl, claim_C1_base64_forces_fast envAllOk [] reqB64Fix (by decide) rfl rfl rfl⟩

/-! ## Claim C2 -/

/-- Counterexample to claim C2 as stated: for a cached profile with no
stored preset and a request carrying `preset = "chrome"`, the single
engine call is made with preset `"chrome"`, which differs from the
cached profile's preset (`null`) — so the call's strategy does not equal
the cached profile in the `preset` component. -/
theorem claim_C2_counterexample :
    (handleFetchRequest envAllOk storeFastFix reqPresetFix).calls.map
        (fun inv =>
          match inv with
          | .attempt c => some c.preset
          | .unblock _ => none) = [some (some "chrome")]
    ∧ profFastFix.preset = none := by decide

/-- Claim C2 (amended): in auto mode on a cached domain, exactly one
engine call is made; its engine, renderJs, renderDelayMs and proxy come
from the cached profile, and its preset is the profile's preset when one
is stored, otherwise the request's preset (`cachedProfile.preset ||
preset`); `unblock` profiles route to the unblock endpoint with only the
URL. The profile's hit counter is incremented, and a failure of that
single call is returned to the caller with no escalation attempted. -/
theorem claim_C2_cached_single_call (env : Env) (store : Store) (req : FetchRequest)
    (p : DomainProfile)
    (hurl : ¬ req.url = "") (hauto : req.engine = .auto)
    (hhit : getProfile store (extractDomain env.parseHostname req.url.toList) = some p) :
    (handleFetchRequest env store req).calls = [cachedInvocation env.cfg req p]
    ∧ (¬ p.engine = .unblock →
        cachedInvocation env.cfg req p = Invocation.attempt
          { url := req.url
            engine := p.engine
            proxy := if p.use_proxy then env.cfg.proxyUrl else ""
            preset := orElseOptStr p.preset req.preset
            responseType := req.responseType
            renderJs := some p.render_js
            waitForJs := none
            renderDelayMs := some p.render_delay_ms })
    ∧ (p.engine = .unblock → cachedInvocation env.cfg req p = .unblock req.url)
    ∧ getProfile (handleFetchRequest env store req).store
        (extractDomain env.parseHostname req.url.toList) =
        some { p with hit_count := p.hit_count + 1 }
    ∧ (∀ e, env.engineOracle (cachedInvocation env.cfg req p) = .error e →
        (handleFetchRequest env store req).response = .fail e)
    ∧ (∀ r, env.engineOracle (cachedInvocation env.cfg req p) = .ok r →
        (handleFetchRequest env store req).response = successResponse env req r) := by
  obtain ⟨url, eng, rj, wj, rd, pr, ps, fm, rt⟩ := req
  cases hauto
  simp only at hurl hhit ⊢
  unfold handleFetchRequest
  dsimp only
  rw [if_neg hurl]
  rw [hhit]
  dsimp only
  refine ⟨?_, ?_, ?_, ?_, ?_, ?_⟩
  · cases env.engineOracle
      (cachedInvocation env.cfg ⟨url, .auto, rj, wj, rd, pr, ps, fm, rt⟩ p) <;> rfl
  · intro hne
    unfold cachedInvocation
    rw [if_neg hne]
  · intro hu
    unfold cachedInvocation
    rw [if_pos hu]
  · cases ho : env.engineOracle
        (cachedInvocation env.cfg ⟨url, .auto, rj, wj, rd, pr, ps, fm, rt⟩ p) <;>
      (dsimp only; rw [getProfile_incrementHitCount, hhit]; rfl)
  · intro e he
    rw [he]
  · intro r hr
    rw [hr]

/-- Witness for the amended C2: a cached browser profile is used for the
single call (hit count 3 → 4), and when the cached engine call fails the
error is returned with no escalation. -/
theorem claim_C2_witness :
    ((handleFetchRequest envAllOk storeBrowserFix reqAutoFix).calls =
        [cachedInvocation envAllOk.cfg reqAutoFix profBrowserFix]
      ∧ getProfile (handleFetchRequest envAllOk storeBrowserFix reqAutoFix).store
          (extractDomain envAllOk.parseHostname reqAutoFix.url.toList) =
          some { profBrowserFix with hit_count := 4 })
    ∧ (handleFetchRequest envAllFail storeBrowserFix reqAutoFix).response = .fail "down" :=
  ⟨⟨(claim_C2_cached_single_call envAllOk storeBrowserFix reqAutoFix profBrowserFix
        (by decide) rfl (by decide)).1,
    (claim_C2_cached_single_call envAllOk storeBrowserFix reqAutoFix profBrowserFix
        (by decide) rfl (by decide)).2.2.2.1⟩,
   (claim_C2_cached_single_call envAllFail storeBrowserFix reqAutoFix profBrowserFix
        (by decide) rfl (by decide)).2.2.2.2.1 "down" rfl⟩

/-! ## Claims C3 and C4 -/

/-- Claim C3: after an auto-mode escalation for an unprofiled domain ends
with a winning step, a profile is persisted iff the winner is not the
default `(fast, useProxy = true)`: a default win leaves the store
untouched, and a non-default win inserts the winning step's engine,
renderJs, renderDelayMs and useProxy (with the chrome preset for
non-fast engines, hit count 1, and the winning status code). -/
theorem claim_C3_profile_written_iff_nondefault (env : Env) (store : Store)
    (req : FetchRequest) (r : FetchResult) (w : EscalationStep)
    (hurl : ¬ req.url = "") (hauto : req.engine = .auto)
    (htext : req.responseType = .text)
    (hmiss : getProfile store (extractDomain env.parseHostname req.url.toList) = none)
    (hwin : (runEscalation env req (getAvailableEscalationChain env.cfg)).2 = some (r, w)) :
    ((w.engine = .fast ∧ w.useProxy = true) →
      (handleFetchRequest env store req).store = store)
    ∧ (¬ (w.engine = .fast ∧ w.useProxy = true) →
        getProfile (handleFetchRequest env store req).store
          (extractDomain env.parseHostname req.url.toList) =
          some { engine := w.engine
                 render_js := w.renderJs
                 render_delay_ms := w.renderDelayMs
                 use_proxy := w.useProxy
                 preset := if w.engine ≠ .fast then some "chrome" else none
                 hit_count := 1
                 last_status_code := some r.statusCode })
    ∧ ((getProfile (handleFetchRequest env store req).store
          (extractDomain env.parseHostname req.url.toList)).isSome
        ↔ ¬ (w.engine = .fast ∧ w.useProxy = true)) := by
  obtain ⟨url, eng, rj, wj, rd, pr, ps, fm, rt⟩ := req
  cases hauto
  cases htext
  simp only at hurl hmiss hwin ⊢
  unfold handleFetchRequest
  dsimp only
  rw [if_neg hurl]
  rw [hmiss]
  dsimp only
  rw [hwin]
  dsimp only
  refine ⟨?_, ?_, ?_⟩
  · intro hdef
    rw [if_pos hdef]
  · intro hnd
    rw [if_neg hnd]
    rw [getProfile_upsert_miss _ _ _ hmiss]
    rfl
  · by_cases hdef : w.engine = .fast ∧ w.useProxy = true
    · rw [if_pos hdef]
      rw [hmiss]
      simp [hdef]
    · rw [if_neg hdef]
      rw [getProfile_upsert_miss _ _ _ hmiss]
      simp [hdef]

/-- Witness for C3: the fast+proxy step fails and fast+direct wins — a
non-default winner, so a fast/direct profile row is inserted; and a
default fast+proxy win leaves the store empty. -/
theorem claim_C3_witness :
    getProfile (handleFetchRequest envStepwise [] reqAutoFix).store
        (extractDomain envStepwise.parseHostname reqAutoFix.url.toList) =
      some { engine := .fast
             render_js := false
             render_delay_ms := 0
             use_proxy := false
             preset := none
             hit_count := 1
             last_status_code := some 200 }
    ∧ (handleFetchRequest envAllOk [] reqAutoFix).store = [] :=
  ⟨(claim_C3_profile_written_iff_nondefault envStepwise [] reqAutoFix resOk
      ⟨.fast, false, 0, false, "Fast + Direct"⟩ (by decide) rfl rfl rfl
      (by decide)).2.1 (by decide),
   (claim_C3_profile_written_iff_nondefault envAllOk [] reqAutoFix resOk
      ⟨.fast, false, 0, true, "Fast + Proxy"⟩ (by decide) rfl rfl rfl
      (by decide)).1 (by decide)⟩

/-- The escalation loop computes exactly the declarative first-accepted
step: its trace is the invocations of the steps up to and including the
winner (or the whole ladder when no step is accepted), and its result is
the winner's engine result. -/
theorem runEscalation_spec (env : Env) (req : FetchRequest) :
    ∀ steps : List EscalationStep,
      runEscalation env req steps =
        match firstWin env req steps with
        | none => (steps.map (stepInvocation env.cfg req), none)
        | some (i, r, w) =>
          ((steps.take (i + 1)).map (stepInvocation env.cfg req), some (r, w)) := by
  intro steps
  induction steps with
  | nil => rfl
  | cons step rest ih =>
    unfold runEscalation firstWin stepAccepts
    dsimp only
    rw [ih]
    generalize env.engineOracle (stepInvocation env.cfg req step) = o
    cases o with
    | error e =>
      dsimp only
      generalize firstWin env req rest = fw
      cases fw with
      | none => rfl
      | some x =>
        obtain ⟨i, r, w⟩ := x
        rfl
    | ok r =>
      dsimp only
      by_cases hs : isContentSufficient r.content r.statusCode = true
      · rw [if_pos hs, if_pos hs]
        rfl
      · rw [if_neg hs, if_neg hs]
        dsimp only
        generalize firstWin env req rest = fw
        cases fw with
        | none => rfl
        | some x =>
          obtain ⟨i, r0, w⟩ := x
          rfl

/-- A declarative winner is indeed accepted by the judge. -/
theorem firstWin_accepts (env : Env) (req : FetchRequest) :
    ∀ (steps : List EscalationStep) (i : Nat) (r : FetchResult) (w : EscalationStep),
      firstWin env req steps = some (i, r, w) → stepAccepts env req w = some r := by
  intro steps
  induction steps with
  | nil =>
    intro i r w h
    exact absurd h (by simp [firstWin])
  | cons step rest ih =>
    intro i r w h
    unfold firstWin at h
    cases ha : stepAccepts env req step with
    | some r0 =>
      rw [ha] at h
      dsimp only at h
      injection h with h1
      simp only [Prod.mk.injEq] at h1
      obtain ⟨-, rfl, rfl⟩ := h1
      exact ha
    | none =>
      rw [ha] at h
      dsimp only at h
      cases hw : firstWin env req rest with
      | none =>
        rw [hw] at h
        exact absurd h (by simp)
      | some x =>
        obtain ⟨i0, r0, w0⟩ := x
        rw [hw] at h
        injection h with h1
        simp only [Prod.mk.injEq] at h1
        obtain ⟨-, rfl, rfl⟩ := h1
        exact ih i0 r0 w0 hw

/-- Claim C4: on an auto-mode cache miss with `responseType = text`, the
ladder is exactly fast+proxy (iff a proxy is configured), fast+direct,
then with a remote endpoint browser@2000ms, stealth@3000ms,
stealth@5000ms, unblock — and stealth@3000ms alone without the remote
endpoint; the walk tries the steps in order, treating a thrown error or
insufficient content as "continue", the first step whose result the
quality judge accepts wins and its result is returned, and if no step is
accepted the request fails with the exhausted-escalation error. -/
theorem claim_C4_escalation_order_walk (env : Env) (store : Store) (req : FetchRequest)
    (hurl : ¬ req.url = "") (hauto : req.engine = .auto)
    (htext : req.responseType = .text)
    (hmiss : getProfile store (extractDomain env.parseHostname req.url.toList) = none) :
    getAvailableEscalationChain env.cfg =
      (if env.cfg.proxyUrl ≠ "" then
        [⟨Engine.fast, false, 0, true, "Fast + Proxy"⟩]
      else []) ++
      [⟨Engine.fast, false, 0, false, "Fast + Direct"⟩] ++
      (if env.cfg.browserlessUrl ≠ "" then
        [⟨Engine.browser, true, 2000, false, "Browser Stealth + Direct"⟩,
         ⟨Engine.stealth, true, 3000, false, "Patchright Stealth 3s + Direct"⟩,
         ⟨Engine.stealth, true, 5000, false, "Patchright Stealth 5s + Direct"⟩,
         ⟨Engine.unblock, true, 0, false, "Browserless Unblock (nuclear)"⟩]
      else
        [⟨Engine.stealth, true, 3000, false, "Patchright Stealth 3s + Direct"⟩])
    ∧ (match firstWin env req (getAvailableEscalationChain env.cfg) with
       | none =>
         (handleFetchRequest env store req).response =
           .fail ("All auto-retry escalation steps failed for " ++ req.url)
         ∧ (handleFetchRequest env store req).calls =
             (getAvailableEscalationChain env.cfg).map (stepInvocation env.cfg req)
       | some (i, r, w) =>
         (handleFetchRequest env store req).response = successResponse env req r
         ∧ (handleFetchRequest env store req).calls =
             ((getAvailableEscalationChain env.cfg).take (i + 1)).map
               (stepInvocation env.cfg req)
         ∧ stepAccepts env req w = some r) := by
  refine ⟨rfl, ?_⟩
  obtain ⟨url, eng, rj, wj, rd, pr, ps, fm, rt⟩ := req
  cases hauto
  cases htext
  simp only at hurl hmiss ⊢
  unfold handleFetchRequest
  dsimp only
  rw [if_neg hurl]
  rw [hmiss]
  dsimp only
  rw [runEscalation_spec]
  cases hw : firstWin env ⟨url, .auto, rj, wj, rd, pr, ps, fm, .text⟩
      (getAvailableEscalationChain env.cfg) with
  | none => exact ⟨rfl, rfl⟩
  | some x =>
    obtain ⟨i, r, w⟩ := x
    exact ⟨rfl, rfl, firstWin_accepts env _ _ i r w hw⟩

/-- Witness for C4 on the fixture where fast+proxy fails and fast+direct
is the first accepted step (index 1): the response is the success
response for its result and exactly the first two ladder invocations
were made. -/
theorem claim_C4_witness :
    (handleFetchRequest envStepwise [] reqAutoFix).response =
      successResponse envStepwise reqAutoFix resOk
    ∧ (handleFetchRequest envStepwise [] reqAutoFix).calls =
        ((getAvailableEscalationChain envStepwise.cfg).take 2).map
          (stepInvocation envStepwise.cfg reqAutoFix) := by
  have h := (claim_C4_escalation_order_walk envStepwise [] reqAutoFix
    (by decide) rfl rfl rfl).2
  rw [show firstWin envStepwise reqAutoFix (getAvailableEscalationChain envStepwise.cfg) =
      some (1, resOk, ⟨Engine.fast, false, 0, false, "Fast + Direct"⟩) from by decide] at h
  exact ⟨h.1, h.2.1⟩

/-! ## Claim C10 -/

/-- Whenever the handler reaches an engine result, the response is the
success response built from it (on every path: explicit, cached, base64,
or escalation). -/
theorem handler_result_response (env : Env) (store : Store) (req : FetchRequest)
    (r : FetchResult)
    (hres : (handleFetchRequest env store req).engineResult = some r) :
    (handleFetchRequest env store req).response = successResponse env req r := by
  obtain ⟨url, eng, rj, wj, rd, pr, ps, fm, rt⟩ := req
  revert hres
  unfold handleFetchRequest
  dsimp only
  by_cases hurl : url = ""
  · rw [if_pos hurl]
    intro hres
    exact absurd hres (by simp)
  · rw [if_neg hurl]
    cases eng <;> dsimp only
    · -- auto
      split
      · split
        · intro hres
          injection hres with h
          cases h
          rfl
        · intro hres
          simp at hres
      · split
        · split
          · intro hres
            injection hres with h
            cases h
            rfl
          · intro hres
            simp at hres
        · split
          · intro hres
            simp at hres
          · intro hres
            injection hres with h
            cases h
            rfl
    · -- fast
      split
      · intro hres
        injection hres with h
        cases h
        rfl
      · intro hres
        simp at hres
    · -- browser
      split
      · intro hres
        injection hres with h
        cases h
        rfl
      · intro hres
        simp at hres
    · -- stealth
      split
      · intro hres
        injection hres with h
        cases h
        rfl
      · intro hres
        simp at hres

/-- Claim C10: format conversion failures are never fatal — for every
engine result the handler reached, if the requested markdown conversion
throws the response is still a success carrying the fetched HTML
unchanged with no markdown field; if it returns the empty string the
markdown field is empty; and for `html-stripped`, a throwing or
null-returning extraction leaves the content unchanged in a success
response. -/
theorem claim_C10_conversion_failure_not_fatal (env : Env) (store : Store)
    (req : FetchRequest) (r : FetchResult)
    (hres : (handleFetchRequest env store req).engineResult = some r) :
    (req.format = .markdown → ∀ e, env.mdConvert r.content req.url = .error e →
      (handleFetchRequest env store req).response =
        .ok r.statusCode r.content none r.url r.engineUsed)
    ∧ (req.format = .markdown → env.mdConvert r.content req.url = .ok [] →
        (handleFetchRequest env store req).response =
          .ok r.statusCode r.content (some []) r.url r.engineUsed)
    ∧ (req.format = .htmlStripped → ∀ e, env.extractConvert r.content req.url = .error e →
        (handleFetchRequest env store req).response =
          .ok r.statusCode r.content none r.url r.engineUsed)
    ∧ (req.format = .htmlStripped → env.extractConvert r.content req.url = .ok none →
        (handleFetchRequest env store req).response =
          .ok r.statusCode r.content none r.url r.engineUsed) := by
  have hr := handler_result_response env store req r hres
  refine ⟨?_, ?_, ?_, ?_⟩
  · intro hf e he
    rw [hr]
    unfold successResponse processContentFormat
    rw [hf]
    dsimp only
    rw [he]
  · intro hf hok
    rw [hr]
    unfold successResponse processContentFormat
    rw [hf]
    dsimp only
    rw [hok]
  · intro hf e he
    rw [hr]
    unfold successResponse processContentFormat
    rw [hf]
    dsimp only
    rw [he]
  · intro hf hok
    rw [hr]
    unfold successResponse processContentFormat
    rw [hf]
    dsimp only
    rw [hok]

/-- Witness for C10: an explicit fast fetch asking for markdown whose
converter throws still succeeds with the raw HTML and no markdown. -/
theorem claim_C10_witness :
    (handleFetchRequest envAllOk [] reqMdFix).engineResult = some resOk
    ∧ reqMdFix.format = .markdown
    ∧ envAllOk.mdConvert resOk.content reqMdFix.url = .error "conv"
    ∧ (handleFetchRequest envAllOk [] reqMdFix).response =
        .ok resOk.statusCode resOk.content none resOk.url resOk.engineUsed :=
  ⟨by decide, rfl, rfl,
   (claim_C10_conversion_failure_not_fatal envAllOk [] reqMdFix resOk (by decide)).1
     rfl "conv" rfl⟩

end Crawler

